import Mathlib

/-!
Verification of the error-translation layer of the `unrar` wrapper crate
(`src/src/error.rs`): the `Code` status-code registry, the `When` operation
phase, the `UnrarError` pair with its `Display` and `Debug` renderings, and
the `NulError` null-byte conversion error.
-/

namespace Unrar

/-- The status-code enumeration `Code` from `src/src/error.rs` (17 variants:
16 tied to native `ERAR_*` constants plus the locally defined `ENul`). -/
inductive Code
  | Success
  | EndArchive
  | NoMemory
  | BadData
  | BadArchive
  | UnknownFormat
  | EOpen
  | ECreate
  | EClose
  | ERead
  | EWrite
  | SmallBuf
  | Unknown
  | MissingPassword
  | EReference
  | BadPassword
  | ENul
  deriving DecidableEq, Fintype

/-- The operation-phase enumeration `When` from `src/src/error.rs`. -/
inductive When
  | Open
  | Read
  | Process
  deriving DecidableEq, Fintype

/-- Modelled from the spec: the `#[repr(i32)]` discriminant of each `Code`
variant.  The `native::ERAR_*` constants that the source assigns to the
native-originated variants live in the native crate, which is outside the
shown sources; the spec requires those discriminants to "numerically match
the native library's documented status constants exactly", i.e. the
documented unrar.h values 0 and 10..24 used below.  `ENul = 0x10000` is
written literally in `src/src/error.rs`. -/
def Code.discriminant : Code → Int
  | .Success => 0
  | .EndArchive => 10
  | .NoMemory => 11
  | .BadData => 12
  | .BadArchive => 13
  | .UnknownFormat => 14
  | .EOpen => 15
  | .ECreate => 16
  | .EClose => 17
  | .ERead => 18
  | .EWrite => 19
  | .SmallBuf => 20
  | .Unknown => 21
  | .MissingPassword => 22
  | .EReference => 23
  | .BadPassword => 24
  | .ENul => 0x10000

/-- All `Code` variants, in declaration order. -/
def Code.all : List Code :=
  [.Success, .EndArchive, .NoMemory, .BadData, .BadArchive, .UnknownFormat,
   .EOpen, .ECreate, .EClose, .ERead, .EWrite, .SmallBuf, .Unknown,
   .MissingPassword, .EReference, .BadPassword, .ENul]

/-- The native-originated `Code` variants (all but the local `ENul`),
in declaration order. -/
def Code.nativeAll : List Code :=
  [.Success, .EndArchive, .NoMemory, .BadData, .BadArchive, .UnknownFormat,
   .EOpen, .ECreate, .EClose, .ERead, .EWrite, .SmallBuf, .Unknown,
   .MissingPassword, .EReference, .BadPassword]

/-- `Code::from` / `Code::from_i32` from `src/src/error.rs`: the
`enum_from_primitive!` macro derives `from_i32` as a first-match comparison
of the input against each variant's discriminant in declaration order,
returning `Some` of the first variant whose discriminant equals the input
and `None` when none does. -/
def Code.from_i32 (n : Int) : Option Code :=
  Code.all.find? (fun c => c.discriminant == n)

/-- The error pair `UnrarError { code, when }` from `src/src/error.rs`;
`derive(PartialEq)` gives structural equality, embedded here as Lean's
structure equality. -/
structure UnrarError where
  code : Code
  when : When
  deriving DecidableEq

/-- The `fmt::Display` implementation for `UnrarError`: a match on the pair
`(self.code, self.when)`, arms in source order (first match wins). -/
def UnrarError.display (e : UnrarError) : String :=
  match e.code, e.when with
  | .BadData, .Open => "Archive header damaged"
  | .BadData, .Read => "File header damaged"
  | .BadData, .Process => "File CRC error"
  | .UnknownFormat, .Open => "Unknown encryption"
  | .EOpen, .Process => "Could not open next volume"
  | .UnknownFormat, _ => "Unknown archive format"
  | .EOpen, _ => "Could not open archive"
  | .NoMemory, _ => "Not enough memory"
  | .BadArchive, _ => "Not a RAR archive"
  | .ECreate, _ => "Could not create file"
  | .EClose, _ => "Could not close file"
  | .ERead, _ => "Read error"
  | .EWrite, _ => "Write error"
  | .SmallBuf, _ => "Archive comment was truncated to fit to buffer"
  | .MissingPassword, _ => "Password for encrypted archive not specified"
  | .EReference, _ => "Cannot open file source for reference record"
  | .BadPassword, _ => "Wrong password was specified"
  | .Unknown, _ => "Unknown error"
  | .EndArchive, _ => "Archive end"
  | .Success, _ => "Success"
  | .ENul, _ => "Nul error (nul found in String)"

/-- The string the Rust `derive(Debug)` prints for each `Code` variant:
the bare variant name. -/
def Code.debugName : Code → String
  | .Success => "Success"
  | .EndArchive => "EndArchive"
  | .NoMemory => "NoMemory"
  | .BadData => "BadData"
  | .BadArchive => "BadArchive"
  | .UnknownFormat => "UnknownFormat"
  | .EOpen => "EOpen"
  | .ECreate => "ECreate"
  | .EClose => "EClose"
  | .ERead => "ERead"
  | .EWrite => "EWrite"
  | .SmallBuf => "SmallBuf"
  | .Unknown => "Unknown"
  | .MissingPassword => "MissingPassword"
  | .EReference => "EReference"
  | .BadPassword => "BadPassword"
  | .ENul => "ENul"

/-- The string the Rust `derive(Debug)` prints for each `When` variant:
the bare variant name. -/
def When.debugName : When → String
  | .Open => "Open"
  | .Read => "Read"
  | .Process => "Process"

/-- The `fmt::Debug` implementation for `UnrarError`:
`write!(f, "{:?}@{:?}", self.code, self.when)` followed by
`write!(f, " ({})", self)`, i.e. code name, "@", phase name, then the
Display message in parentheses. -/
def UnrarError.debugRepr (e : UnrarError) : String :=
  e.code.debugName ++ "@" ++ e.when.debugName ++ " (" ++ e.display ++ ")"

/-- The spec's ordered message rule table, transcribed from the spec's own
words (section 4.2) for comparison against the source-derived
`UnrarError.display`: each rule is (code pattern, phase pattern, message),
where `none` in a pattern position means "any".  Rules are listed in the
spec's priority order. -/
def specRules : List (Option Code × Option When × String) :=
  [(some .BadData, some .Open, "Archive header damaged"),
   (some .BadData, some .Read, "File header damaged"),
   (some .BadData, some .Process, "File CRC error"),
   (some .UnknownFormat, some .Open, "Unknown encryption"),
   (some .EOpen, some .Process, "Could not open next volume"),
   (some .UnknownFormat, none, "Unknown archive format"),
   (some .EOpen, none, "Could not open archive"),
   (some .NoMemory, none, "Not enough memory"),
   (some .BadArchive, none, "Not a RAR archive"),
   (some .ECreate, none, "Could not create file"),
   (some .EClose, none, "Could not close file"),
   (some .ERead, none, "Read error"),
   (some .EWrite, none, "Write error"),
   (some .SmallBuf, none, "Archive comment was truncated to fit to buffer"),
   (some .MissingPassword, none, "Password for encrypted archive not specified"),
   (some .EReference, none, "Cannot open file source for reference record"),
   (some .BadPassword, none, "Wrong password was specified"),
   (some .Unknown, none, "Unknown error"),
   (some .EndArchive, none, "Archive end"),
   (some .Success, none, "Success"),
   (some .ENul, none, "Nul error (nul found in String)")]

/-- Whether a spec rule matches a concrete (code, phase) pair: each pattern
position matches when it is the wildcard `none` or equals the value. -/
def ruleMatches (c : Code) (w : When) (r : Option Code × Option When × String) : Bool :=
  (match r.1 with
   | none => true
   | some c2 => c2 == c)
  && (match r.2.1 with
      | none => true
      | some w2 => w2 == w)

/-- First-match-wins evaluation of the spec's rule table: the message of the
first rule matching (code, phase), or `none` when no rule matches. -/
def specFirstMessage (c : Code) (w : When) : Option String :=
  (specRules.find? (ruleMatches c w)).map (fun r => r.2.2)

/-- The null-byte error `NulError(usize)` from `src/src/error.rs`: a wrapper
around the position of the offending nul. -/
structure NulError where
  pos : Nat
  deriving DecidableEq

/-- The `fmt::Display` implementation for `NulError`:
`write!(f, "nul value found at position: {}", self.0)`. -/
def NulError.display (e : NulError) : String :=
  "nul value found at position: " ++ toString e.pos

/-- Model of `std::ffi::NulError` (narrow, single-byte encoding): the only
datum the conversion reads is `nul_position()`, the byte offset of the first
interior nul. -/
structure FfiNulError where
  nulPosition : Nat

/-- Model of `widestring::NulError<C>` (wide-character encoding): the only
datum the conversion reads is `nul_position()`. -/
structure WideNulError where
  nulPosition : Nat

/-- `impl From<ffi::NulError> for NulError` from `src/src/error.rs`:
`NulError(e.nul_position())`. -/
def NulError.fromFfi (e : FfiNulError) : NulError :=
  ⟨e.nulPosition⟩

/-- `impl<C: widestring::UChar> From<widestring::NulError<C>> for NulError`
from `src/src/error.rs`: `NulError(e.nul_position())`. -/
def NulError.fromWide (e : WideNulError) : NulError :=
  ⟨e.nulPosition⟩

/-- Helper: every `Code` variant is in the declaration-order list. -/
theorem Code.mem_all (c : Code) : c ∈ Code.all := by
  cases c <;> decide

/-- Helper: `Code.from_i32` returns `none` exactly when the input differs
from every variant's discriminant. -/
theorem Code.from_i32_none_iff (n : Int) :
    Code.from_i32 n = none ↔ ∀ c : Code, Code.discriminant c ≠ n := by
  unfold Code.from_i32
  rw [List.find?_eq_none]
  constructor
  · intro h c
    have hc := h c (Code.mem_all c)
    simpa using hc
  · intro h c _
    simpa using h c

/-- C1: for every (code, phase) pair, the user-facing Display message of
`UnrarError` equals the message of the first matching rule of the spec's
ordered rule table; in particular (BadData, Open) renders
"Archive header damaged", (BadData, Process) renders "File CRC error",
(EOpen, Process) renders "Could not open next volume", and (EOpen, Open)
renders "Could not open archive". -/
theorem display_matches_spec_table :
    (∀ c : Code, ∀ w : When, specFirstMessage c w = some (UnrarError.display ⟨c, w⟩))
    ∧ UnrarError.display ⟨Code.BadData, When.Open⟩ = "Archive header damaged"
    ∧ UnrarError.display ⟨Code.BadData, When.Process⟩ = "File CRC error"
    ∧ UnrarError.display ⟨Code.EOpen, When.Process⟩ = "Could not open next volume"
    ∧ UnrarError.display ⟨Code.EOpen, When.Open⟩ = "Could not open archive" :=
  ⟨by decide, rfl, rfl, rfl, rfl⟩

/-- C2 counterexample: `Code` has exactly 17 variants, not 19, so the cross
product with the 3 phases has 51 combinations, not 57. -/
theorem code_has_17_variants_not_19 :
    (∀ c : Code, c ∈ Code.all)
    ∧ Code.all.Nodup
    ∧ Code.all.length = 17
    ∧ Code.all.length ≠ 19
    ∧ Code.all.length * 3 ≠ 57 := by
  refine ⟨Code.mem_all, ?_, ?_, ?_, ?_⟩ <;> decide

/-- C2 (amended): for all 17 `Code` variants combined with all 3 `When`
values (51 combinations), rendering an `UnrarError` produces a non-empty
message: the match is exhaustive over the full cross product. -/
theorem display_total_and_nonempty :
    (∀ c : Code, c ∈ Code.all)
    ∧ Code.all.length = 17
    ∧ (∀ c : Code, ∀ w : When, UnrarError.display ⟨c, w⟩ ≠ "") := by
  refine ⟨Code.mem_all, by decide, by decide⟩

/-- C3: for every native-originated `Code` variant, `from_i32` applied to
its discriminant returns `some` of exactly that variant (round-trip). -/
theorem classify_roundtrip_native :
    ∀ c : Code, c ∈ Code.nativeAll → Code.from_i32 c.discriminant = some c := by
  decide

/-- Witness for C3 at the concrete variant `BadData`. -/
theorem classify_roundtrip_native_witness :
    Code.BadData ∈ Code.nativeAll
    ∧ Code.from_i32 Code.BadData.discriminant = some Code.BadData :=
  ⟨by decide, classify_roundtrip_native Code.BadData (by decide)⟩

/-- C4 counterexample: `0x10000` is not the discriminant of any
native-originated variant (it is not a documented native status code), yet
`from_i32 0x10000` is `some ENul`, not `none`: classification is defined
beyond the native-documented codes. -/
theorem classify_defined_beyond_native :
    (0x10000 : Int) ∉ Code.nativeAll.map Code.discriminant
    ∧ Code.from_i32 0x10000 = some Code.ENul
    ∧ Code.from_i32 0x10000 ≠ none := by
  refine ⟨by decide, by decide, by decide⟩

/-- C4 (amended): the integer-to-`Code` mapping is defined exactly for the
17 declared discriminants (the 16 native-documented codes plus the local
`ENul = 0x10000`): `from_i32 n` is `none` if and only if `n` differs from
every declared discriminant. -/
theorem classify_none_iff_undeclared (n : Int) :
    Code.from_i32 n = none ↔ ∀ c : Code, Code.discriminant c ≠ n :=
  Code.from_i32_none_iff n

/-- C5: for every integer that equals none of the declared discriminants,
`from_i32` returns `none`; in particular `from_i32 (-999) = none`. -/
theorem classify_none_outside_discriminants :
    (∀ n : Int, (∀ c : Code, Code.discriminant c ≠ n) → Code.from_i32 n = none)
    ∧ Code.from_i32 (-999) = none :=
  ⟨fun n h => (Code.from_i32_none_iff n).mpr h, by decide⟩

/-- Witness for C5 at the concrete input -999. -/
theorem classify_none_outside_discriminants_witness :
    Code.from_i32 (-999) = none :=
  classify_none_outside_discriminants.1 (-999) (by decide)

/-- C6 counterexample: the Debug rendering of
`UnrarError(UnknownFormat, Open)` is the exact string
"UnknownFormat@Open (Unknown encryption)", which does not contain the
substring "Opening" (the phase's name in the code is "Open"). -/
theorem debug_lacks_opening_substring :
    UnrarError.debugRepr ⟨Code.UnknownFormat, When.Open⟩
      = "UnknownFormat@Open (Unknown encryption)"
    ∧ ¬ ("Opening".data <:+: (UnrarError.debugRepr ⟨Code.UnknownFormat, When.Open⟩).data) := by
  refine ⟨rfl, by decide⟩

/-- C6 (amended): the Debug rendering of an `UnrarError` is the code name,
an "@" separator, the phase name, and the Display message in parentheses;
the rendering of `UnrarError(UnknownFormat, Open)` contains the substrings
"UnknownFormat", "Open" (the phase's name as the code spells it) and
"Unknown encryption". -/
theorem debugRepr_is_code_at_phase_message :
    (∀ c : Code, ∀ w : When,
      UnrarError.debugRepr ⟨c, w⟩
        = c.debugName ++ "@" ++ w.debugName ++ " (" ++ UnrarError.display ⟨c, w⟩ ++ ")")
    ∧ ("UnknownFormat".data <:+: (UnrarError.debugRepr ⟨Code.UnknownFormat, When.Open⟩).data)
    ∧ ("Open".data <:+: (UnrarError.debugRepr ⟨Code.UnknownFormat, When.Open⟩).data)
    ∧ ("Unknown encryption".data <:+: (UnrarError.debugRepr ⟨Code.UnknownFormat, When.Open⟩).data) := by
  refine ⟨fun c w => rfl, by decide, by decide, by decide⟩

/-- C7: converting a narrow (`ffi::NulError`) or wide
(`widestring::NulError`) conversion failure with nul position p into
`NulError` stores exactly p, and the display text contains the decimal
rendering of p; in particular a narrow failure at position 5 stores 5 and
its display contains "5". -/
theorem nulerror_conversion_preserves_position :
    (∀ p : Nat, (NulError.fromFfi ⟨p⟩).pos = p)
    ∧ (∀ p : Nat, (NulError.fromWide ⟨p⟩).pos = p)
    ∧ (∀ p : Nat, (toString p).data <:+: (NulError.display (NulError.fromFfi ⟨p⟩)).data)
    ∧ (NulError.fromFfi ⟨5⟩).pos = 5
    ∧ ("5".data <:+: (NulError.display (NulError.fromFfi ⟨5⟩)).data) := by
  refine ⟨fun p => rfl, fun p => rfl, ?_, rfl, by decide⟩
  intro p
  refine ⟨"nul value found at position: ".data, [], ?_⟩
  simp [NulError.display, NulError.fromFfi, String.data_append]

/-- C8: two `UnrarError` values are equal if and only if their `code`
fields are equal and their `when` fields are equal. -/
theorem unrarError_structural_eq (a b : UnrarError) :
    a = b ↔ a.code = b.code ∧ a.when = b.when := by
  obtain ⟨c1, w1⟩ := a
  obtain ⟨c2, w2⟩ := b
  constructor
  · intro h
    cases h
    exact ⟨rfl, rfl⟩
  · rintro ⟨h1, h2⟩
    cases h1
    cases h2
    rfl

/-- C9: the discriminant of the locally-added `ENul` variant equals 0x10000
and differs from the discriminant of every native-originated variant. -/
theorem enul_discriminant_outside_native :
    Code.ENul.discriminant = 0x10000
    ∧ Code.ENul.discriminant ∉ Code.nativeAll.map Code.discriminant := by
  refine ⟨rfl, by decide⟩

/-- C10: `from_i32 0x10000` returns `some ENul`: the locally-defined
variant is recognized, and classification round-trips on all 17 declared
discriminants, not only the native-documented ones. -/
theorem classify_total_on_declared :
    Code.from_i32 0x10000 = some Code.ENul
    ∧ (∀ c : Code, Code.from_i32 c.discriminant = some c) := by
  refine ⟨by decide, by decide⟩

end Unrar
